import Mathlib

/-!
Verification development for the `j_staget` repository: a shallow embedding of
the pagination/fetch core in `src/j_staget/client.py` together with the XML
field extractor in `src/j_staget/_xml.py`.

Modelling conventions:
* Python exceptions become an explicit error type `PyError`; `fetch` returns
  `Except PyError FetchResult`.
* The HTTP transport plus lxml parse of one page is abstracted as a
  `PageResponse` (request failure, parse failure, or a parsed `Page`); the
  sequence of responses the remote service would give to the 1st, 2nd, ...
  request is a function `Nat → PageResponse`.
* An XML entry element is abstracted to the lists of text nodes that each of
  the extractor's XPath queries selects on it (document order, `None` texts
  dropped in `get_texts` are modelled as the query simply not listing them,
  empty-string texts are kept and filtered exactly where the Python does).
* `polars` dataframes become an explicit column-name list plus a list of typed
  rows; `pl.DataFrame([])` is the dataframe with no columns and no rows.
* Python `int` is `Int`; the loop's `start_idx` only ever holds `1 + k*step`
  so it is a `Nat`.
-/

set_option autoImplicit false

namespace JStaget

/-- Errors `fetch` can raise: a plain `ValueError` (validation and `int(...)`
conversion failures) or the library's `JStageAPIError` wrapper (request and
XML-parse failures), `class JStageAPIError(RuntimeError)` in `client.py`. -/
inductive PyError where
  | valueError (msg : String)
  | jstageAPIError (msg : String)
deriving DecidableEq

/-- An XML `<entry>` element of the response feed, abstracted to the text
nodes selected by each XPath query the extractor issues against it
(`_xml.py` and the record-building block of `client.py`, lines 187-207).
Each field lists, in document order, the non-`None` `.text` values the query
returns on the real element. -/
structure Entry where
  /-- texts of `./author/ja/name/text()` (local-name match) -/
  authorJaNames : List String := []
  /-- texts of `./author/name/text()` (local-name match) -/
  authorNames : List String := []
  /-- texts of `./article_title/ja/text()` -/
  articleTitleJa : List String := []
  /-- texts of `./article_title//text()` -/
  articleTitleAll : List String := []
  /-- texts of `./material_title/ja/text()` -/
  materialTitleJa : List String := []
  /-- texts of `./material_title//text()` -/
  materialTitleAll : List String := []
  /-- `.text` of nodes matched by `atom:cdjournal` -/
  cdjournalTexts : List String := []
  /-- `.text` of nodes matched by `prism:issn` -/
  prismIssn : List String := []
  /-- `.text` of nodes matched by `prism:eIssn` -/
  prismEIssn : List String := []
  /-- texts of `./article_link/ja/text()` -/
  articleLinkJa : List String := []
  /-- texts of `./article_link//text()` -/
  articleLinkAll : List String := []
  /-- `.text` of nodes matched by `atom:pubyear` -/
  pubyearTexts : List String := []
  /-- `.text` of nodes matched by `prism:doi` -/
  prismDoi : List String := []
  /-- `.text` of nodes matched by `prism:volume` -/
  prismVolume : List String := []
  /-- texts of `./*[local-name()=cdvols]/text()` -/
  cdvolsTexts : List String := []
  /-- `.text` of nodes matched by `prism:number` -/
  prismNumber : List String := []
  /-- `.text` of nodes matched by `prism:startingPage` -/
  prismStartingPage : List String := []
  /-- `.text` of nodes matched by `prism:endingPage` -/
  prismEndingPage : List String := []
deriving DecidableEq

/-- ASCII whitespace, the only whitespace appearing in this development
(Python `str.strip()` additionally strips other Unicode whitespace). -/
def isPySpace (c : Char) : Bool :=
  c = ' ' || c = '\t' || c = '\n' || c = '\r' || c = '\x0b' || c = '\x0c'

/-- Python `str.strip()`: drop leading and trailing whitespace.  Defined
structurally on the character list so that concrete runs reduce. -/
def pyStrip (s : String) : String :=
  ⟨((s.data.dropWhile isPySpace).reverse.dropWhile isPySpace).reverse⟩

/-- `_xml.get_texts`: `[n.text for n in nodes if getattr(n, "text", None)]` —
keeps the truthy (non-empty) text values, untrimmed. -/
def get_texts (raw : List String) : List String :=
  raw.filter (fun t => t ≠ "")

/-- `_xml.get_first`: first value of `get_texts`, else `None`. -/
def get_first (raw : List String) : Option String :=
  (get_texts raw).head?

/-- `_xml.texts_local`: strips each string result and keeps the non-empty
ones (the element branch of the Python function never applies here because
the queries we model all end in `/text()`). -/
def texts_local (raw : List String) : List String :=
  (raw.map pyStrip).filter (fun t => t ≠ "")

/-- `_xml.first_local`: first value of `texts_local`, else `None`. -/
def first_local (raw : List String) : Option String :=
  (texts_local raw).head?

/-- `_xml.pick_ja_or_first_tag_local`: prefer the `ja` sub-element text, fall
back to the first text anywhere under the tag.  (`if ja:` — `first_local`
only returns non-empty strings, so truthiness is just `is not None`.) -/
def pick_ja_or_first_tag_local (jaTexts allTexts : List String) : Option String :=
  match first_local jaTexts with
  | some t => some t
  | none => first_local allTexts

/-- `_xml.authors_local`: prefer the `ja`-tagged name list, fall back to the
generic name list. -/
def authors_local (e : Entry) : List String :=
  let ja := texts_local e.authorJaNames
  if ja ≠ [] then ja else texts_local e.authorNames

/-- The per-entry dict appended to `all_data` (`client.py` lines 187-207).
All scalar fields are optional strings at this stage; typing happens in the
dataframe assembly. -/
structure Record where
  author : List String
  article_title : Option String
  material_title : Option String
  cdjournal : Option String
  p_issn : Option String
  o_issn : Option String
  article_link : Option String
  pubyear : Option String
  doi : Option String
  volume : Option String
  cdvols : Option String
  number : Option String
  starting_page : Option String
  ending_page : Option String
deriving DecidableEq

/-- The dict built for one entry inside the `for entry in entries` loop.
`cdvols` is the inline `xpath(...)[0].strip() if xpath(...) else None`
(note: stripped but NOT filtered for emptiness, unlike the helpers). -/
def extractRecord (e : Entry) : Record where
  author := authors_local e
  article_title := pick_ja_or_first_tag_local e.articleTitleJa e.articleTitleAll
  material_title := pick_ja_or_first_tag_local e.materialTitleJa e.materialTitleAll
  cdjournal := get_first e.cdjournalTexts
  p_issn := get_first e.prismIssn
  o_issn := get_first e.prismEIssn
  article_link := pick_ja_or_first_tag_local e.articleLinkJa e.articleLinkAll
  pubyear := get_first e.pubyearTexts
  doi := get_first e.prismDoi
  volume := get_first e.prismVolume
  cdvols := match e.cdvolsTexts with
            | [] => none
            | t :: _ => some (pyStrip t)
  number := get_first e.prismNumber
  starting_page := get_first e.prismStartingPage
  ending_page := get_first e.prismEndingPage

/-- One successfully parsed XML response page: the metadata text nodes the
page-level XPath queries select, plus the `atom:entry` elements. -/
structure Page where
  /-- first text of `//result/status/text()` (local-name match), if any -/
  statusText : Option String := none
  /-- first text of `//opensearch:totalResults/text()`, if any -/
  totalText : Option String := none
  /-- first text of the local-name fallback `//totalResults/text()`, if any -/
  totalTextFallback : Option String := none
  entries : List Entry := []
deriving DecidableEq

/-- `client._get_result_status`: strip the status text; empty or absent
becomes `None`. -/
def _get_result_status (p : Page) : Option String :=
  match p.statusText with
  | some s => let s2 := pyStrip s
              if s2 ≠ "" then some s2 else none
  | none => none

/-- CPython `int(t)` on an already-stripped string, restricted to an optional
ASCII sign followed by ASCII decimal digits (underscore separators and
non-ASCII digits, which CPython also accepts, are not modelled — no value in
this development uses them).  `none` means `int` raises `ValueError`. -/
def parseDecInt (s : String) : Option Int :=
  let digitsVal : List Char → Option Nat := fun l =>
    if l ≠ [] ∧ l.all Char.isDigit then
      some (l.foldl (fun a c => a * 10 + (c.toNat - 48)) 0)
    else none
  match s.data with
  | '+' :: rest => (digitsVal rest).map Int.ofNat
  | '-' :: rest => (digitsVal rest).map (fun n => -(n : Int))
  | l => (digitsVal l).map Int.ofNat

/-- The message CPython attaches to the `ValueError` from `int(t)`. -/
def intValueErrorMsg (t : String) : String :=
  "invalid literal for int() with base 10: \x27" ++ t ++ "\x27"

/-- `client._get_total_results_first`: try the namespaced query, then the
local-name fallback; a present, non-empty (after strip) text is fed to
`int(...)`, which may raise `ValueError`; otherwise `None`. -/
def _get_total_results_first (p : Page) : Except PyError (Option Int) :=
  let conv : String → Except PyError (Option Int) := fun t =>
    match parseDecInt t with
    | some n => .ok (some n)
    | none => .error (.valueError (intValueErrorMsg t))
  let fallback : Except PyError (Option Int) :=
    match p.totalTextFallback with
    | some t0 =>
      let t2 := pyStrip t0
      if t2 ≠ "" then conv t2 else .ok none
    | none => .ok none
  match p.totalText with
  | some t0 =>
    let t := pyStrip t0
    if t ≠ "" then conv t else fallback
  | none => fallback

/-- `if total_results is None: total_results = _get_total_results_first(root)`
(lines 172-173): capture only while nothing has been captured yet. -/
def captureTotal (cur : Option Int) (p : Page) : Except PyError (Option Int) :=
  match cur with
  | some t => .ok (some t)
  | none => _get_total_results_first p

/-- What one HTTP round-trip plus the lxml parse yields: a transport/HTTP
failure (`requests.RequestException`, wrapped at line 159), a body that is
not valid XML (wrapped at line 164), or a parsed page. -/
inductive PageResponse where
  | requestError (msg : String)
  | parseError
  | page (p : Page)
deriving DecidableEq

/-- The mutable state of the `while True` loop in `fetch`: the 1-based
cursor `start_idx`, the first-seen `total_results`, the accumulator
`all_data`, plus a ghost log of the `start` values of the requests issued
so far (one entry per GET, in order). -/
structure LoopState where
  startIdx : Nat
  total : Option Int
  acc : List Record
  reqs : List Nat
deriving DecidableEq

/-- Ghost tag recording which of the loop's terminating branches fired. -/
inductive ExitKind where
  /-- `return FetchResult(df=pl.DataFrame([]), total_results=0)` on `ERR_001` -/
  | sentinel
  /-- `if start_idx == 1 and not entries: break` -/
  | firstPageEmpty
  /-- `if not entries: break` -/
  | pageEmpty
  /-- `if len(all_data) == prev_len: break` -/
  | noProgress
  /-- `if len(all_data) >= max_records: break` -/
  | maxReached
  /-- `if total_results is not None and start_idx > total_results: break` -/
  | pastTotal
deriving DecidableEq

/-- Outcome of one loop iteration. -/
inductive StepOut where
  | next (s : LoopState)
  | exit (k : ExitKind) (s : LoopState)
  | fail (e : PyError)
deriving DecidableEq

/-- The `for entry in entries` loop (lines 187-209): append the extracted
record for each entry, breaking as soon as the accumulator length reaches
`max_records` (the check runs after each append). -/
def appendEntries (maxRec : Nat) : List Record → List Entry → List Record
  | acc, [] => acc
  | acc, e :: rest =>
    let acc2 := acc ++ [extractRecord e]
    if maxRec ≤ acc2.length then acc2 else appendEntries maxRec acc2 rest

/-- One iteration of the `while True` loop (lines 147-222), given the
response the service returns to this iteration's GET.  The `sleep` call is
a pure delay and is not modelled. -/
def loopStep (stp maxRec : Nat) (resp : PageResponse) (s0 : LoopState) : StepOut :=
  let s1 : LoopState := { s0 with reqs := s0.reqs ++ [s0.startIdx] }
  match resp with
  | .requestError m => .fail (.jstageAPIError ("Request failed: " ++ m))
  | .parseError => .fail (.jstageAPIError "Failed to parse XML response")
  | .page p =>
    if _get_result_status p = some "ERR_001" then
      .exit .sentinel s1
    else
      match captureTotal s1.total p with
      | .error e => .fail e
      | .ok t2 =>
        let s2 : LoopState := { s1 with total := t2 }
        if s2.startIdx = 1 ∧ p.entries = [] then .exit .firstPageEmpty s2
        else if p.entries = [] then .exit .pageEmpty s2
        else
          let s3 : LoopState := { s2 with acc := appendEntries maxRec s2.acc p.entries }
          if s3.acc.length = s0.acc.length then .exit .noProgress s3
          else if maxRec ≤ s3.acc.length then .exit .maxReached s3
          else
            let s4 : LoopState := { s3 with startIdx := s3.startIdx + stp }
            match s4.total with
            | some t => if (s4.startIdx : Int) > t then .exit .pastTotal s4 else .next s4
            | none => .next s4

/-- Final state of a terminating run of the loop, with the ghost exit tag. -/
structure LoopFinal where
  kind : ExitKind
  state : LoopState
deriving DecidableEq

/-- Run the loop, reading the response to the `n`-th request from `pages n`
(the ghost request log doubles as the request counter).  `fuel` is a
modelling artifact: each continuing iteration strictly grows the
accumulator while staying below `max_records`, so `max_records + 1` units
never run out. -/
def runLoop (pages : Nat → PageResponse) (stp maxRec : Nat) :
    Nat → LoopState → Option (Except PyError LoopFinal)
  | 0, _ => none
  | fuel + 1, s =>
    match loopStep stp maxRec (pages s.reqs.length) s with
    | .next s2 => runLoop pages stp maxRec fuel s2
    | .exit k s2 => some (.ok ⟨k, s2⟩)
    | .fail e => some (.error e)

/-- The keyword arguments of `fetch` that affect its result.  `sleep`,
`timeout` and `session` only affect timing/transport and are absorbed into
the `PageResponse` abstraction. -/
structure FetchArgs where
  target_word : Option String := none
  year : Int := 1950
  field : String := "article"
  max_records : Int := 20000
  step : Int := 1000
  material : Option String := none
  author : Option String := none
  affil : Option String := none
  issn : Option String := none
  cdjournal : Option String := none
deriving DecidableEq

/-- `ALLOWED_FIELDS = {"article", "abst", "text", "keyword"}`. -/
def ALLOWED_FIELDS : List String := ["article", "abst", "text", "keyword"]

/-- `SEARCH_PARAM_KEYS`: parameters that count as a search term. -/
def SEARCH_PARAM_KEYS : List String :=
  ["material", "article", "author", "affil", "keyword", "abst", "text", "issn", "cdjournal"]

/-- `if material: base_params["material"] = material` — a `str | None`
option is added exactly when it is truthy (present and non-empty). -/
def optParam (k : String) (v : Option String) : List (String × String) :=
  match v with
  | some s => if s ≠ "" then [(k, s)] else []
  | none => []

/-- The `target_word`/`field` pair (lines 115-116): added when
`target_word is not None and target_word.strip()`, holding the stripped
word under the chosen field key. -/
def targetParam (a : FetchArgs) : List (String × String) :=
  match a.target_word with
  | some w => if pyStrip w ≠ "" then [(a.field, pyStrip w)] else []
  | none => []

/-- `base_params` (lines 109-128) as an insertion-ordered association list
(the keys involved are pairwise distinct, so dict and list agree). -/
def base_params (a : FetchArgs) : List (String × String) :=
  [("service", "3"), ("pubyearfrom", toString a.year)]
    ++ targetParam a
    ++ optParam "material" a.material
    ++ optParam "author" a.author
    ++ optParam "affil" a.affil
    ++ optParam "issn" a.issn
    ++ optParam "cdjournal" a.cdjournal

/-- `k in base_params` — key membership in the ordered dict. -/
def containsKey (ps : List (String × String)) (k : String) : Bool :=
  ps.any (fun kv => kv.1 = k)

/-- The per-page query parameters (lines 148-150): `base_params` plus the
`start` cursor and `count`.  Percent-encoding of the values (`_q`) does not
change which keys are present and is not modelled. -/
def pageParams (a : FetchArgs) (startIdx : Nat) : List (String × String) :=
  base_params a ++ [("start", toString startIdx), ("count", toString a.step)]

/-- Message of the unknown-field `ValueError`:
`f"field must be one of {sorted(ALLOWED_FIELDS)}"`. -/
def fieldErrMsg : String :=
  "field must be one of [\x27abst\x27, \x27article\x27, \x27keyword\x27, \x27text\x27]"

/-- Message of the no-search-term `ValueError` (lines 132-135); it names
every acceptable parameter form. -/
def noSearchTermMsg : String :=
  "At least one search parameter must be provided: target_word (with field), material, author, affil, issn, or cdjournal."

/-- The pre-flight validation of `fetch` (lines 101-135), in source order;
`some msg` is the message of the `ValueError` raised, `none` means all
checks passed. -/
def validationError (a : FetchArgs) : Option String :=
  if ALLOWED_FIELDS.contains a.field = false then some fieldErrMsg
  else if a.max_records ≤ 0 then some "max_records must be > 0"
  else if a.step ≤ 0 then some "step must be > 0"
  else if SEARCH_PARAM_KEYS.any (fun k => containsKey (base_params a) k) = false then
    some noSearchTermMsg
  else none

/-- One row of the assembled dataframe, after the `with_columns` casts
(lines 226-241): `Utf8` casts keep the strings, `Int32` casts parse or
yield null, and `url_doi` is derived from `doi`. -/
structure Row where
  author : List String
  article_title : Option String
  material_title : Option String
  cdjournal : Option String
  p_issn : Option String
  o_issn : Option String
  article_link : Option String
  pubyear : Option Int
  doi : Option String
  volume : Option String
  cdvols : Option String
  number : Option String
  starting_page : Option Int
  ending_page : Option Int
  url_doi : Option String
deriving DecidableEq

/-- `cast(pl.Int32, strict=False)` on a Utf8 column: parse an optional sign
plus decimal digits, null on anything else or on Int32 overflow. -/
def castInt32 (s : Option String) : Option Int :=
  s.bind fun t =>
    match parseDecInt t with
    | some n => if -(2 ^ 31) ≤ n ∧ n < 2 ^ 31 then some n else none
    | none => none

/-- The `with_columns` expression list applied to one row: identity `Utf8`
casts, `Int32` casts on `pubyear`/`starting_page`/`ending_page`, and
`url_doi = when(doi.is_not_null()).then("https://doi.org/" + doi)
.otherwise(None)`. -/
def assembleRow (r : Record) : Row where
  author := r.author
  article_title := r.article_title
  material_title := r.material_title
  cdjournal := r.cdjournal
  p_issn := r.p_issn
  o_issn := r.o_issn
  article_link := r.article_link
  pubyear := castInt32 r.pubyear
  doi := r.doi
  volume := r.volume
  cdvols := r.cdvols
  number := r.number
  starting_page := castInt32 r.starting_page
  ending_page := castInt32 r.ending_page
  url_doi := match r.doi with
             | some d => some ("https://doi.org/" ++ d)
             | none => none

/-- A polars dataframe, reduced to its ordered column names and rows. -/
structure DF where
  columns : List String
  rows : List Row
deriving DecidableEq

/-- `pl.DataFrame([])`: shape (0, 0) — no columns, no rows. -/
def emptyDF : DF := ⟨[], []⟩

/-- Column order of the per-entry dict (insertion order, lines 188-206). -/
def recordColumns : List String :=
  ["author", "article_title", "material_title", "cdjournal", "p_issn", "o_issn",
   "article_link", "pubyear", "doi", "volume", "cdvols", "number",
   "starting_page", "ending_page"]

/-- Columns after `with_columns`: existing columns keep their position, the
new `url_doi` is appended. -/
def assembledColumns : List String := recordColumns ++ ["url_doi"]

/-- `df = pl.DataFrame(all_data)` followed by the guarded `with_columns`
(lines 224-241): an empty accumulator gives the (0, 0) dataframe and the
casts are skipped; otherwise columns are inferred from the dict keys and
the cast/derive pass runs. -/
def mkDF (records : List Record) : DF :=
  if records.isEmpty then emptyDF
  else ⟨assembledColumns, records.map assembleRow⟩

/-- `@dataclass FetchResult`. -/
structure FetchResult where
  df : DF
  total_results : Option Int
deriving DecidableEq

/-- From the loop's final state to the returned `FetchResult`: the sentinel
branch returns `FetchResult(pl.DataFrame([]), 0)` directly; every `break`
falls through to the assembly and the `total_results` fallback to
`len(all_data)` (lines 243-247). -/
def finishFetch (f : LoopFinal) : FetchResult :=
  match f.kind with
  | .sentinel => ⟨emptyDF, some 0⟩
  | _ => ⟨mkDF f.state.acc, some (f.state.total.getD (f.state.acc.length : Int))⟩

/-- State at the top of the first iteration: `start_idx = 1`,
`total_results = None`, `all_data = []`, no request issued yet. -/
def initState : LoopState := ⟨1, none, [], []⟩

/-- `fetch` up to (but not including) the final assembly: validation, then
the paging loop. -/
def fetchRun (a : FetchArgs) (pages : Nat → PageResponse) : Except PyError LoopFinal :=
  match validationError a with
  | some msg => .error (.valueError msg)
  | none =>
    match runLoop pages a.step.toNat a.max_records.toNat (a.max_records.toNat + 1) initState with
    | some r => r
    | none => .error (.valueError "unreachable: fuel exhausted")

/-- `client.fetch`, as a function of its arguments and of the sequence of
responses the service gives to the successive requests. -/
def fetch (a : FetchArgs) (pages : Nat → PageResponse) : Except PyError FetchResult :=
  (fetchRun a pages).map finishFetch

/-- Modelled from the spec: the documented output-table schema — the
fifteen column names in the stated order (spec § EXTERNAL INTERFACES). -/
def specOutputColumns : List String :=
  ["author", "article_title", "material_title", "cdjournal", "p_issn", "o_issn",
   "article_link", "pubyear", "doi", "volume", "cdvols", "number",
   "starting_page", "ending_page", "url_doi"]

/-- The value the first `n` pages report for `total_results`: scanning in
request order, the first page whose total element parses to a value wins;
pages with a missing/empty total (or that are not parsed pages) contribute
nothing. -/
def firstTotal (pages : Nat → PageResponse) : Nat → Option Int
  | 0 => none
  | n + 1 =>
    match firstTotal pages n with
    | some t => some t
    | none =>
      match pages n with
      | .page p =>
        match _get_total_results_first p with
        | .ok t => t
        | .error _ => none
      | _ => none

/-- Projection for concrete statements: exit kind, accumulator length and
request log of a successful run. -/
def runSummary (r : Except PyError LoopFinal) : Option (ExitKind × Nat × List Nat) :=
  match r with
  | .ok f => some (f.kind, f.state.acc.length, f.state.reqs)
  | .error _ => none

/-- Projection for concrete statements: row count of a successful fetch. -/
def okRowCount (r : Except PyError FetchResult) : Option Nat :=
  match r with
  | .ok x => some x.df.rows.length
  | .error _ => none

/-- Projection for concrete statements: column list of a successful fetch. -/
def okColumns (r : Except PyError FetchResult) : Option (List String) :=
  match r with
  | .ok x => some x.df.columns
  | .error _ => none

/-- Projection for concrete statements: `total_results` of a successful
fetch. -/
def okTotal (r : Except PyError FetchResult) : Option (Option Int) :=
  match r with
  | .ok x => some x.total_results
  | .error _ => none

/-- Projection for concrete statements: the `url_doi` column of a
successful fetch. -/
def okUrlDois (r : Except PyError FetchResult) : Option (List (Option String)) :=
  match r with
  | .ok x => some (x.df.rows.map Row.url_doi)
  | .error _ => none

/-- Projection for concrete statements: the error of a failed fetch. -/
def errOf (r : Except PyError FetchResult) : Option PyError :=
  match r with
  | .error e => some e
  | .ok _ => none

/-- An entry element carrying no text anywhere. -/
def e0 : Entry := {}

/-- An entry element whose only text is a `prism:doi` value. -/
def eDoi : Entry := { prismDoi := ["10.1234/abcd"] }

/-- Arguments of the spec's worked example: `max_records = 5` with the
default `step`, searching for a word. -/
def argsMax5 : FetchArgs := { target_word := some "cat", max_records := 5 }

/-- Service behaviour of the spec's worked example: every page yields 3
records and no total, indefinitely. -/
def pagesOf3 : Nat → PageResponse := fun _ => .page { entries := [e0, e0, e0] }

/-- Arguments for the sentinel-after-accumulation scenario: small pages so a
second page is requested. -/
def argsStep10 : FetchArgs := { target_word := some "cat", max_records := 50, step := 10 }

/-- Page 1 reports `totalResults = 100` and yields 10 records; page 2
carries the `ERR_001` sentinel status. -/
def pagesSentinelLater : Nat → PageResponse := fun n =>
  if n = 0 then .page { totalText := some "100", entries := List.replicate 10 e0 }
  else .page { statusText := some "ERR_001" }

/-- A single page reporting a total of 7 but yielding no entries. -/
def pagesTotalNoEntries : Nat → PageResponse := fun _ =>
  .page { totalText := some "7" }

/-- A single empty page: no status, no total, no entries. -/
def pagesEmpty : Nat → PageResponse := fun _ => .page {}

/-- A page whose `totalResults` text is present and non-empty but not a
decimal integer. -/
def pagesBadTotal : Nat → PageResponse := fun _ =>
  .page { totalText := some "N/A", entries := [e0] }

/-- A run where page 1 yields one record with a DOI and one without, and
page 2 ends the result set. -/
def pagesDoi : Nat → PageResponse := fun n =>
  if n = 0 then .page { totalText := some "2", entries := [eDoi, e0] }
  else .page {}

/-- A `fetch` error discriminator with a decidable payload: `some true`
iff the error is the `JStageAPIError` wrapper. -/
def isJStageAPIError (e : Option PyError) : Option Bool :=
  e.map fun err => match err with
    | .valueError _ => false
    | .jstageAPIError _ => true

/-- Final loop state of the run `fetch argsMax5 pagesEmpty` (first page has
no entries). -/
def fEmptyRun : LoopFinal := ⟨.firstPageEmpty, ⟨1, none, [], [1]⟩⟩

/-- Final loop state of the run `fetch argsMax5 pagesOf3` (limit 5 reached
mid-page on request 2). -/
def fMax5 : LoopFinal :=
  ⟨.maxReached, ⟨1001, none, List.replicate 5 (extractRecord e0), [1, 1001]⟩⟩

/-- Final loop state of the run `fetch argsStep10 pagesSentinelLater`
(sentinel observed on request 2 after 10 accumulated records). -/
def fSentinelRun : LoopFinal :=
  ⟨.sentinel, ⟨11, some 100, List.replicate 10 (extractRecord e0), [1, 11]⟩⟩

/-- Result of the run `fetch argsMax5 pagesDoi`. -/
def rDoi : FetchResult :=
  ⟨⟨assembledColumns, [assembleRow (extractRecord eDoi), assembleRow (extractRecord e0)]⟩,
   some 2⟩

theorem appendEntries_mono (mr : Nat) (acc : List Record) (es : List Entry) :
    acc.length ≤ (appendEntries mr acc es).length := by
  induction es generalizing acc with
  | nil => simp [appendEntries]
  | cons e rest ih =>
    simp only [appendEntries]
    split
    · simp
    · exact le_trans (by simp) (ih (acc ++ [extractRecord e]))

theorem appendEntries_grows (mr : Nat) (acc : List Record) (es : List Entry)
    (h : es ≠ []) : acc.length < (appendEntries mr acc es).length := by
  cases es with
  | nil => exact absurd rfl h
  | cons e rest =>
    simp only [appendEntries]
    split
    · simp
    · calc acc.length < (acc ++ [extractRecord e]).length := by simp
        _ ≤ _ := appendEntries_mono mr _ rest

theorem appendEntries_le (mr : Nat) (acc : List Record) (es : List Entry)
    (h : acc.length < mr) : (appendEntries mr acc es).length ≤ mr := by
  induction es generalizing acc with
  | nil => simpa [appendEntries] using le_of_lt h
  | cons e rest ih =>
    simp only [appendEntries]
    split
    · simpa using h
    · next hlt => exact ih _ (lt_of_not_le hlt)

theorem loopStep_next_char {stp mr : Nat} {resp : PageResponse} {s s2 : LoopState}
    (h : loopStep stp mr resp s = .next s2) :
    ∃ p t2, resp = .page p ∧
      _get_result_status p ≠ some "ERR_001" ∧
      captureTotal s.total p = .ok t2 ∧
      p.entries ≠ [] ∧
      s2 = { startIdx := s.startIdx + stp, total := t2,
             acc := appendEntries mr s.acc p.entries, reqs := s.reqs ++ [s.startIdx] } ∧
      (appendEntries mr s.acc p.entries).length < mr ∧
      (∀ t, t2 = some t → ((s.startIdx + stp : Nat) : Int) ≤ t) := by
  cases resp with
  | requestError m => simp [loopStep] at h
  | parseError => simp [loopStep] at h
  | page p =>
    simp only [loopStep] at h
    refine ⟨p, ?_⟩
    by_cases hs : _get_result_status p = some "ERR_001"
    · simp [hs] at h
    · rw [if_neg hs] at h
      cases hc : captureTotal s.total p with
      | error e => rw [hc] at h; simp at h
      | ok t2 =>
        rw [hc] at h
        simp only at h
        refine ⟨t2, rfl, hs, rfl, ?_⟩
        by_cases h1 : s.startIdx = 1 ∧ p.entries = []
        · simp [h1] at h
        · rw [if_neg h1] at h
          by_cases h2 : p.entries = []
          · simp [h2] at h
          · rw [if_neg h2] at h
            by_cases h3 : (appendEntries mr s.acc p.entries).length = s.acc.length
            · simp [h3] at h
            · rw [if_neg h3] at h
              by_cases h4 : mr ≤ (appendEntries mr s.acc p.entries).length
              · simp [h4] at h
              · rw [if_neg h4] at h
                refine ⟨h2, ?_, lt_of_not_le h4, ?_⟩
                · cases ht : t2 with
                  | none => rw [ht] at h; cases h; rfl
                  | some t =>
                    rw [ht] at h
                    simp only at h
                    by_cases h5 : ((s.startIdx + stp : Nat) : Int) > t
                    · rw [if_pos h5] at h; exact absurd h (by simp)
                    · rw [if_neg h5] at h; cases h; rfl
                · intro t ht
                  rw [ht] at h
                  simp only at h
                  by_cases h5 : ((s.startIdx + stp : Nat) : Int) > t
                  · rw [if_pos h5] at h; exact absurd h (by simp)
                  · exact not_lt.mp h5

theorem loopStep_exit_char {stp mr : Nat} {resp : PageResponse} {s s2 : LoopState}
    {k : ExitKind} (h : loopStep stp mr resp s = .exit k s2) :
    s2.reqs = s.reqs ++ [s.startIdx] ∧
    k ≠ .noProgress ∧
    (k = .sentinel →
      s2 = { s with reqs := s.reqs ++ [s.startIdx] } ∧
      ∃ p, resp = .page p ∧ _get_result_status p = some "ERR_001") ∧
    (k ≠ .sentinel → ∃ p t2, resp = .page p ∧ _get_result_status p ≠ some "ERR_001" ∧
      captureTotal s.total p = .ok t2 ∧ s2.total = t2) ∧
    (s.acc.length < mr → s2.acc.length ≤ mr) := by
  cases resp with
  | requestError m => simp [loopStep] at h
  | parseError => simp [loopStep] at h
  | page p =>
    simp only [loopStep] at h
    by_cases hs : _get_result_status p = some "ERR_001"
    · rw [if_pos hs] at h
      cases h
      exact ⟨rfl, by simp, fun _ => ⟨rfl, p, rfl, hs⟩, fun hk => absurd rfl hk,
        fun hlt => le_of_lt hlt⟩
    · rw [if_neg hs] at h
      cases hc : captureTotal s.total p with
      | error e => rw [hc] at h; simp at h
      | ok t2 =>
        rw [hc] at h
        simp only at h
        by_cases h1 : s.startIdx = 1 ∧ p.entries = []
        · rw [if_pos h1] at h
          cases h
          exact ⟨rfl, by simp, fun hk => absurd hk (by simp),
            fun _ => ⟨p, t2, rfl, hs, hc, rfl⟩, fun hlt => le_of_lt hlt⟩
        · rw [if_neg h1] at h
          by_cases h2 : p.entries = []
          · rw [if_pos h2] at h
            cases h
            exact ⟨rfl, by simp, fun hk => absurd hk (by simp),
              fun _ => ⟨p, t2, rfl, hs, hc, rfl⟩, fun hlt => le_of_lt hlt⟩
          · rw [if_neg h2] at h
            by_cases h3 : (appendEntries mr s.acc p.entries).length = s.acc.length
            · exact absurd h3 (ne_of_gt (appendEntries_grows mr s.acc p.entries h2))
            · rw [if_neg h3] at h
              by_cases h4 : mr ≤ (appendEntries mr s.acc p.entries).length
              · rw [if_pos h4] at h
                cases h
                exact ⟨rfl, by simp, fun hk => absurd hk (by simp),
                  fun _ => ⟨p, t2, rfl, hs, hc, rfl⟩,
                  fun hlt => appendEntries_le mr s.acc p.entries hlt⟩
              · rw [if_neg h4] at h
                cases ht : t2 with
                | none => rw [ht] at h; simp at h
                | some t =>
                  rw [ht] at h
                  simp only at h
                  by_cases h5 : ((s.startIdx + stp : Nat) : Int) > t
                  · rw [if_pos h5] at h
                    cases h
                    exact ⟨rfl, by simp, fun hk => absurd hk (by simp),
                      fun _ => ⟨p, t2, rfl, hs, hc, by rw [ht]⟩,
                      fun _ => le_of_lt (lt_of_not_le h4)⟩
                  · rw [if_neg h5] at h; simp at h

theorem loopStep_sentinel {stp mr : Nat} {p : Page} {s : LoopState}
    (hs : _get_result_status p = some "ERR_001") :
    loopStep stp mr (.page p) s = .exit .sentinel { s with reqs := s.reqs ++ [s.startIdx] } := by
  simp [loopStep, hs]

theorem runLoop_ok_acc_le {pages : Nat → PageResponse} {stp mr : Nat} :
    ∀ fuel (s : LoopState) (f : LoopFinal),
      runLoop pages stp mr fuel s = some (.ok f) → s.acc.length < mr →
      f.state.acc.length ≤ mr := by
  intro fuel
  induction fuel with
  | zero => intro s f h _; simp [runLoop] at h
  | succ n ih =>
    intro s f h hlt
    simp only [runLoop] at h
    cases hstep : loopStep stp mr (pages s.reqs.length) s with
    | next s2 =>
      rw [hstep] at h
      obtain ⟨p, t2, -, -, -, -, hs2, hbound, -⟩ := loopStep_next_char hstep
      refine ih s2 f h ?_
      rw [hs2]
      exact hbound
    | exit k s2 =>
      rw [hstep] at h
      obtain ⟨-, -, -, -, hacc⟩ := loopStep_exit_char hstep
      cases h
      exact hacc hlt
    | fail e => rw [hstep] at h; simp at h

theorem runLoop_ok_reqs {pages : Nat → PageResponse} {stp mr : Nat} :
    ∀ fuel (s : LoopState) (f : LoopFinal) (n : Nat),
      runLoop pages stp mr fuel s = some (.ok f) →
      s.reqs = (List.range n).map (fun i => 1 + i * stp) →
      s.startIdx = 1 + n * stp →
      ∃ m, f.state.reqs = (List.range m).map (fun i => 1 + i * stp) := by
  intro fuel
  induction fuel with
  | zero => intro s f n h _ _; simp [runLoop] at h
  | succ fl ih =>
    intro s f n h hreqs hstart
    simp only [runLoop] at h
    have happend : s.reqs ++ [s.startIdx] =
        (List.range (n + 1)).map (fun i => 1 + i * stp) := by
      rw [hreqs, hstart, List.range_succ, List.map_append]
      simp
    cases hstep : loopStep stp mr (pages s.reqs.length) s with
    | next s2 =>
      rw [hstep] at h
      obtain ⟨p, t2, -, -, -, -, hs2, -, -⟩ := loopStep_next_char hstep
      refine ih s2 f (n + 1) h ?_ ?_
      · rw [hs2]
        exact happend
      · rw [hs2]
        simp only
        rw [hstart]
        ring
    | exit k s2 =>
      rw [hstep] at h
      obtain ⟨hr, -, -, -, -⟩ := loopStep_exit_char hstep
      cases h
      exact ⟨n + 1, by rw [hr]; exact happend⟩
    | fail e => rw [hstep] at h; simp at h

theorem captureTotal_firstTotal {pages : Nat → PageResponse} {n : Nat} {p : Page}
    {t0 t2 : Option Int} (htotal : t0 = firstTotal pages n) (hp : pages n = .page p)
    (hcap : captureTotal t0 p = .ok t2) : t2 = firstTotal pages (n + 1) := by
  cases t0 with
  | some t =>
    simp only [captureTotal, Except.ok.injEq] at hcap
    subst hcap
    simp only [firstTotal, ← htotal]
  | none =>
    simp only [captureTotal] at hcap
    simp only [firstTotal, ← htotal, hp]
    simp [hcap]

theorem runLoop_ok_total {pages : Nat → PageResponse} {stp mr : Nat} :
    ∀ fuel (s : LoopState) (f : LoopFinal),
      runLoop pages stp mr fuel s = some (.ok f) →
      s.total = firstTotal pages s.reqs.length →
      f.kind ≠ .sentinel →
      f.state.total = firstTotal pages f.state.reqs.length := by
  intro fuel
  induction fuel with
  | zero => intro s f h _ _; simp [runLoop] at h
  | succ n ih =>
    intro s f h htotal hks
    simp only [runLoop] at h
    cases hstep : loopStep stp mr (pages s.reqs.length) s with
    | next s2 =>
      rw [hstep] at h
      obtain ⟨p, t2, hp, -, hcap, -, hs2, -, -⟩ := loopStep_next_char hstep
      refine ih s2 f h ?_ hks
      rw [hs2]
      simp only [List.length_append, List.length_singleton]
      show t2 = firstTotal pages (s.reqs.length + 1)
      exact captureTotal_firstTotal htotal hp hcap
    | exit k s2 =>
      rw [hstep] at h
      obtain ⟨hr, -, -, hnons, -⟩ := loopStep_exit_char hstep
      cases h
      have hkind : k ≠ .sentinel := hks
      obtain ⟨p, t2, hp, -, hcap, hs2t⟩ := hnons hkind
      show s2.total = firstTotal pages s2.reqs.length
      rw [hr]
      simp only [List.length_append, List.length_singleton]
      rw [hs2t]
      exact captureTotal_firstTotal htotal hp hcap
    | fail e => rw [hstep] at h; simp at h

theorem runLoop_sentinel_trap {pages : Nat → PageResponse} {stp mr : Nat} :
    ∀ fuel (s : LoopState) (f : LoopFinal),
      runLoop pages stp mr fuel s = some (.ok f) →
      ∀ j, s.reqs.length ≤ j → j < f.state.reqs.length →
      ∀ p, pages j = .page p → _get_result_status p = some "ERR_001" →
      f.kind = .sentinel := by
  intro fuel
  induction fuel with
  | zero => intro s f h; simp [runLoop] at h
  | succ n ih =>
    intro s f h j hj1 hj2 p hp hps
    simp only [runLoop] at h
    cases hstep : loopStep stp mr (pages s.reqs.length) s with
    | next s2 =>
      rw [hstep] at h
      obtain ⟨q, t2, -, -, -, -, hs2, -, -⟩ := loopStep_next_char hstep
      rcases Nat.eq_or_lt_of_le hj1 with hj | hj
      · rw [← hj] at hp
        rw [hp, loopStep_sentinel hps] at hstep
        simp at hstep
      · refine ih s2 f h j ?_ hj2 p hp hps
        rw [hs2]
        simpa using hj
    | exit k s2 =>
      rw [hstep] at h
      obtain ⟨hr, -, -, -, -⟩ := loopStep_exit_char hstep
      cases h
      have hlen : s2.reqs.length = s.reqs.length + 1 := by rw [hr]; simp
      have hj : j = s.reqs.length := by
        have := hj2
        rw [hlen] at this
        omega
      rw [← hj] at hstep
      rw [hp, loopStep_sentinel hps] at hstep
      cases hstep
      rfl
    | fail e => rw [hstep] at h; simp at h

theorem fetchRun_ok_elim {a : FetchArgs} {pages : Nat → PageResponse} {f : LoopFinal}
    (h : fetchRun a pages = .ok f) :
    validationError a = none ∧
    runLoop pages a.step.toNat a.max_records.toNat (a.max_records.toNat + 1) initState =
      some (.ok f) := by
  unfold fetchRun at h
  cases hv : validationError a with
  | some msg => rw [hv] at h; simp at h
  | none =>
    rw [hv] at h
    refine ⟨rfl, ?_⟩
    cases hr : runLoop pages a.step.toNat a.max_records.toNat (a.max_records.toNat + 1)
        initState with
    | none => rw [hr] at h; simp at h
    | some r => rw [hr] at h; simp only at h; rw [h]

theorem validation_none_facts {a : FetchArgs} (h : validationError a = none) :
    ALLOWED_FIELDS.contains a.field = true ∧ 0 < a.max_records ∧ 0 < a.step ∧
    SEARCH_PARAM_KEYS.any (fun k => containsKey (base_params a) k) = true := by
  unfold validationError at h
  cases hb : ALLOWED_FIELDS.contains a.field with
  | false => rw [if_pos hb] at h; exact absurd h (by simp)
  | true =>
    rw [if_neg (by rw [hb]; simp)] at h
    by_cases h2 : a.max_records ≤ 0
    · rw [if_pos h2] at h; exact absurd h (by simp)
    · rw [if_neg h2] at h
      by_cases h3 : a.step ≤ 0
      · rw [if_pos h3] at h; exact absurd h (by simp)
      · rw [if_neg h3] at h
        cases hany : SEARCH_PARAM_KEYS.any (fun k => containsKey (base_params a) k) with
        | false => rw [if_pos hany] at h; exact absurd h (by simp)
        | true => exact ⟨rfl, lt_of_not_le h2, lt_of_not_le h3, rfl⟩

theorem validation_none_mr_pos {a : FetchArgs} (h : validationError a = none) :
    0 < a.max_records.toNat := by
  obtain ⟨-, h2, -, -⟩ := validation_none_facts h
  omega

theorem mkDF_rows_length (recs : List Record) : (mkDF recs).rows.length = recs.length := by
  unfold mkDF
  split
  · next he => simp [emptyDF, List.isEmpty_iff.mp he]
  · simp

theorem finishFetch_not_sentinel {f : LoopFinal} (h : f.kind ≠ .sentinel) :
    finishFetch f =
      ⟨mkDF f.state.acc, some (f.state.total.getD (f.state.acc.length : Int))⟩ := by
  unfold finishFetch
  cases hk : f.kind <;> simp_all

theorem finishFetch_sentinel {f : LoopFinal} (h : f.kind = .sentinel) :
    finishFetch f = ⟨emptyDF, some 0⟩ := by
  unfold finishFetch
  rw [h]

theorem fetch_ok_elim {a : FetchArgs} {pages : Nat → PageResponse} {r : FetchResult}
    (h : fetch a pages = .ok r) :
    ∃ f, fetchRun a pages = .ok f ∧ r = finishFetch f := by
  unfold fetch at h
  cases hf : fetchRun a pages with
  | error e => rw [hf] at h; simp [Except.map] at h
  | ok f =>
    rw [hf] at h
    simp only [Except.map] at h
    cases h
    exact ⟨f, rfl, rfl⟩

theorem fetch_validation_error {a : FetchArgs} {msg : String}
    (h : validationError a = some msg) (pages : Nat → PageResponse) :
    fetch a pages = .error (.valueError msg) := by
  unfold fetch fetchRun
  rw [h]
  rfl

theorem map_range_get {stp m i : Nat}
    (h : i < ((List.range m).map (fun j => 1 + j * stp)).length) :
    ((List.range m).map (fun j => 1 + j * stp)).get ⟨i, h⟩ = 1 + i * stp := by
  simp

/-- Claim C1: the accumulator of `fetch` never exceeds `max_records` (every
successful fetch returns at most `max_records` rows); the loop never
continues past a page on which the limit was reached (an iteration that
continues always leaves the accumulator strictly below the limit, so the
limit is only ever hit mid-page, inside a terminating iteration); and in
the spec's worked example — `max_records = 5` with every page yielding 3
records indefinitely — the run stops mid-page via the `max_records` break
with exactly 5 rows after issuing only the two requests with starts 1 and
1001. -/
theorem claim_C1_max_records_bound :
    (∀ (a : FetchArgs) (pages : Nat → PageResponse) (r : FetchResult),
      fetch a pages = .ok r → r.df.rows.length ≤ a.max_records.toNat) ∧
    (∀ (stp mr : Nat) (resp : PageResponse) (s s2 : LoopState),
      loopStep stp mr resp s = .next s2 → s2.acc.length < mr) ∧
    runSummary (fetchRun argsMax5 pagesOf3) = some (.maxReached, 5, [1, 1001]) ∧
    okRowCount (fetch argsMax5 pagesOf3) = some 5 := by
  refine ⟨?_, ?_, rfl, rfl⟩
  · intro a pages r h
    obtain ⟨f, hf, hr⟩ := fetch_ok_elim h
    obtain ⟨hv, hloop⟩ := fetchRun_ok_elim hf
    have hmr := validation_none_mr_pos hv
    have hacc : f.state.acc.length ≤ a.max_records.toNat :=
      runLoop_ok_acc_le _ _ _ hloop (by simpa [initState] using hmr)
    subst hr
    by_cases hk : f.kind = .sentinel
    · rw [finishFetch_sentinel hk]
      simp [emptyDF]
    · rw [finishFetch_not_sentinel hk]
      simpa [mkDF_rows_length] using hacc
  · intro stp mr resp s s2 h
    obtain ⟨p, t2, -, -, -, -, hs2, hb, -⟩ := loopStep_next_char h
    rw [hs2]
    exact hb

/-- Witness for C1: the row bound applied to the concrete empty run, and
the continuing-iteration bound applied to a concrete continuing step. -/
theorem claim_C1_max_records_bound_witness :
    (FetchResult.mk emptyDF (some 0)).df.rows.length ≤ argsMax5.max_records.toNat ∧
    (LoopState.mk 11 (some 100) (List.replicate 10 (extractRecord e0)) [1]).acc.length < 50 :=
  ⟨claim_C1_max_records_bound.1 argsMax5 pagesEmpty ⟨emptyDF, some 0⟩ rfl,
   claim_C1_max_records_bound.2.1 10 50
     (.page { totalText := some "100", entries := List.replicate 10 e0 }) initState
     ⟨11, some 100, List.replicate 10 (extractRecord e0), [1]⟩ (by decide)⟩

/-- Claim C3 (amended): a run that terminates via a zero-entries page or a
non-progressing page returns the accumulated records as a normal success;
a run that terminates via the sentinel status also succeeds but returns a
zero-row result, discarding any records accumulated before the sentinel
page (the original claim said accumulated records are returned in this
case too, which the code contradicts). -/
theorem claim_C3_graceful_empty :
    ∀ (a : FetchArgs) (pages : Nat → PageResponse) (f : LoopFinal),
      fetchRun a pages = .ok f →
      ((f.kind = .firstPageEmpty ∨ f.kind = .pageEmpty ∨ f.kind = .noProgress) →
        fetch a pages = .ok ⟨mkDF f.state.acc,
          some (f.state.total.getD (f.state.acc.length : Int))⟩) ∧
      (f.kind = .sentinel → fetch a pages = .ok ⟨emptyDF, some 0⟩) := by
  intro a pages f hf
  constructor
  · intro hk
    have hns : f.kind ≠ .sentinel := by rcases hk with h | h | h <;> simp [h]
    unfold fetch
    rw [hf]
    simp only [Except.map]
    rw [finishFetch_not_sentinel hns]
  · intro hk
    unfold fetch
    rw [hf]
    simp only [Except.map]
    rw [finishFetch_sentinel hk]

/-- Witness for C3 at the concrete empty-first-page run. -/
theorem claim_C3_graceful_empty_witness :
    fetch argsMax5 pagesEmpty = .ok ⟨mkDF fEmptyRun.state.acc,
      some (fEmptyRun.state.total.getD (fEmptyRun.state.acc.length : Int))⟩ :=
  (claim_C3_graceful_empty argsMax5 pagesEmpty fEmptyRun rfl).1 (Or.inl rfl)

/-- Counterexample to C3 as stated: a run that terminates via the
graceful-empty sentinel condition after accumulating 10 records returns a
0-row result, not the 10 accumulated records. -/
theorem claim_C3_counterexample :
    runSummary (fetchRun argsStep10 pagesSentinelLater) = some (.sentinel, 10, [1, 11]) ∧
    okRowCount (fetch argsStep10 pagesSentinelLater) = some 0 :=
  ⟨rfl, rfl⟩

/-- Claim C4: whenever a page actually fetched during the run carries the
`ERR_001` sentinel status, `fetch` terminates successfully with the
zero-row `FetchResult` and `total_results = 0`. -/
theorem claim_C4_sentinel_zero_result :
    ∀ (a : FetchArgs) (pages : Nat → PageResponse) (f : LoopFinal) (j : Nat) (p : Page),
      fetchRun a pages = .ok f → j < f.state.reqs.length →
      pages j = .page p → _get_result_status p = some "ERR_001" →
      fetch a pages = .ok ⟨emptyDF, some 0⟩ := by
  intro a pages f j p hf hj hp hps
  obtain ⟨hv, hloop⟩ := fetchRun_ok_elim hf
  have hk : f.kind = .sentinel :=
    runLoop_sentinel_trap _ _ _ hloop j (by simp [initState]) hj p hp hps
  unfold fetch
  rw [hf]
  simp only [Except.map]
  rw [finishFetch_sentinel hk]

/-- Witness for C4: the sentinel observed on the second fetched page of a
concrete run forces the zero-row, total-0 result. -/
theorem claim_C4_sentinel_zero_result_witness :
    fetch argsStep10 pagesSentinelLater = .ok ⟨emptyDF, some 0⟩ :=
  claim_C4_sentinel_zero_result argsStep10 pagesSentinelLater fSentinelRun 1
    { statusText := some "ERR_001" } rfl (by decide) rfl rfl

/-- Claim C10: a non-empty entries list always appends at least one record
(the accumulator strictly grows), and consequently the
accumulator-length-unchanged break is dead code: no loop exit ever carries
the `noProgress` tag. -/
theorem claim_C10_no_progress_dead :
    (∀ (mr : Nat) (acc : List Record) (es : List Entry), es ≠ [] →
      acc.length < (appendEntries mr acc es).length) ∧
    (∀ (stp mr : Nat) (resp : PageResponse) (s s2 : LoopState) (k : ExitKind),
      loopStep stp mr resp s = .exit k s2 → k ≠ .noProgress) := by
  refine ⟨fun mr acc es h => appendEntries_grows mr acc es h, ?_⟩
  intro stp mr resp s s2 k h
  exact (loopStep_exit_char h).2.1

/-- Witness for C10: strict growth on a concrete one-entry page, and the
exit tag of a concrete empty-page exit is not `noProgress`. -/
theorem claim_C10_no_progress_dead_witness :
    ([] : List Record).length < (appendEntries 5 [] [e0]).length ∧
    ExitKind.firstPageEmpty ≠ ExitKind.noProgress :=
  ⟨claim_C10_no_progress_dead.1 5 [] [e0] (by decide),
   claim_C10_no_progress_dead.2 1000 5 (.page {}) initState ⟨1, none, [], [1]⟩
     .firstPageEmpty (by decide)⟩

/-- Claim C2 (amended): for every run that terminates without observing the
sentinel status, `total_results` equals the value reported by the first
fetched page whose total parses to a value (later pages with missing or
empty totals never overwrite it), falling back to the number of
accumulated records when no page reported one; and `total_results` is
never `None` on any successful fetch.  The original claim also covered
sentinel runs, where the code instead returns `total_results = 0` even if
an earlier page had reported a total. -/
theorem claim_C2_total_first_seen :
    (∀ (a : FetchArgs) (pages : Nat → PageResponse) (f : LoopFinal),
      fetchRun a pages = .ok f → f.kind ≠ .sentinel →
      fetch a pages = .ok ⟨mkDF f.state.acc,
        some ((firstTotal pages f.state.reqs.length).getD (f.state.acc.length : Int))⟩) ∧
    (∀ (a : FetchArgs) (pages : Nat → PageResponse) (r : FetchResult),
      fetch a pages = .ok r → r.total_results ≠ none) := by
  constructor
  · intro a pages f hf hk
    obtain ⟨hv, hloop⟩ := fetchRun_ok_elim hf
    have ht : f.state.total = firstTotal pages f.state.reqs.length :=
      runLoop_ok_total _ _ _ hloop (by simp [initState, firstTotal]) hk
    unfold fetch
    rw [hf]
    simp only [Except.map]
    rw [finishFetch_not_sentinel hk, ← ht]
  · intro a pages r h
    obtain ⟨f, hf, hr⟩ := fetch_ok_elim h
    subst hr
    by_cases hk : f.kind = .sentinel
    · rw [finishFetch_sentinel hk]
      simp
    · rw [finishFetch_not_sentinel hk]
      simp

/-- Witness for C2 at the concrete empty-first-page run. -/
theorem claim_C2_total_first_seen_witness :
    fetch argsMax5 pagesEmpty = .ok ⟨mkDF fEmptyRun.state.acc,
      some ((firstTotal pagesEmpty fEmptyRun.state.reqs.length).getD
        (fEmptyRun.state.acc.length : Int))⟩ :=
  claim_C2_total_first_seen.1 argsMax5 pagesEmpty fEmptyRun rfl (by decide)

/-- Counterexample to C2 as stated: the first fetched page reports a total
of 100, yet the returned `total_results` is 0, because the second page
carries the sentinel status. -/
theorem claim_C2_counterexample :
    firstTotal pagesSentinelLater 1 = some 100 ∧
    runSummary (fetchRun argsStep10 pagesSentinelLater) = some (.sentinel, 10, [1, 11]) ∧
    okTotal (fetch argsStep10 pagesSentinelLater) = some (some 0) :=
  ⟨rfl, rfl, rfl⟩

/-- Claim C6: request starts form the arithmetic progression
`1, 1 + step, 1 + 2*step, ...` (the cursor starts at 1 and advances by
exactly `step` after every completed page), and an iteration only
continues to another page when either no total has been captured or the
advanced cursor does not exceed the captured total. -/
theorem claim_C6_cursor_progression :
    (∀ (a : FetchArgs) (pages : Nat → PageResponse) (f : LoopFinal),
      fetchRun a pages = .ok f →
      ∀ i (h : i < f.state.reqs.length),
        f.state.reqs.get ⟨i, h⟩ = 1 + i * a.step.toNat) ∧
    (∀ (stp mr : Nat) (resp : PageResponse) (s s2 : LoopState),
      loopStep stp mr resp s = .next s2 →
      s2.startIdx = s.startIdx + stp ∧
      ∀ t, s2.total = some t → ((s2.startIdx : Nat) : Int) ≤ t) := by
  constructor
  · intro a pages f hf i hi
    obtain ⟨hv, hloop⟩ := fetchRun_ok_elim hf
    obtain ⟨m, hm⟩ :=
      runLoop_ok_reqs _ _ _ 0 hloop (by simp [initState]) (by simp [initState])
    have hi2 : i < ((List.range m).map (fun j => 1 + j * a.step.toNat)).length := by
      rw [← hm]
      exact hi
    rw [List.get_eq_getElem]
    simp only [hm, List.getElem_map, List.getElem_range]
  · intro stp mr resp s s2 h
    obtain ⟨p, t2, -, -, -, -, hs2, -, hle⟩ := loopStep_next_char h
    subst hs2
    exact ⟨rfl, hle⟩

/-- Witness for C6: the second request of the worked-example run starts at
`1 + 1 * 1000`, and a concrete continuing step advances the cursor by the
page size while staying within the captured total. -/
theorem claim_C6_cursor_progression_witness :
    fMax5.state.reqs.get ⟨1, by decide⟩ = 1 + 1 * argsMax5.step.toNat ∧
    (LoopState.mk 11 (some 100) (List.replicate 10 (extractRecord e0)) [1]).startIdx =
      initState.startIdx + 10 :=
  ⟨claim_C6_cursor_progression.1 argsMax5 pagesOf3 fMax5 rfl 1 (by decide),
   (claim_C6_cursor_progression.2 10 50
     (.page { totalText := some "100", entries := List.replicate 10 e0 }) initState
     ⟨11, some 100, List.replicate 10 (extractRecord e0), [1]⟩ (by decide)).1⟩

/-- Claim C7 (amended): a run that accumulates zero records returns a
well-formed zero-row result whose dataframe has no columns (the
documented fifteen-column schema is only instantiated when at least one
record was accumulated), and `total_results` is never left unset: it is 0
in the sentinel case and otherwise the captured total, defaulting to 0
when no page reported one.  The original claim required the fifteen-column
schema and `total_results = 0` unconditionally, which the code
contradicts. -/
theorem claim_C7_empty_result :
    (∀ (a : FetchArgs) (pages : Nat → PageResponse) (f : LoopFinal),
      fetchRun a pages = .ok f → f.state.acc = [] →
      fetch a pages = .ok ⟨emptyDF,
        some (if f.kind = .sentinel then 0 else f.state.total.getD 0)⟩) ∧
    (∀ recs : List Record, recs ≠ [] → (mkDF recs).columns = specOutputColumns) := by
  constructor
  · intro a pages f hf hacc
    unfold fetch
    rw [hf]
    simp only [Except.map]
    by_cases hk : f.kind = .sentinel
    · rw [finishFetch_sentinel hk, if_pos hk]
    · rw [finishFetch_not_sentinel hk, if_neg hk]
      rw [hacc]
      rfl
  · intro recs h
    unfold mkDF
    rw [if_neg (by simpa using h)]
    rfl

/-- Witness for C7 at the concrete empty run, plus the schema of a
non-empty result. -/
theorem claim_C7_empty_result_witness :
    fetch argsMax5 pagesEmpty = .ok ⟨emptyDF,
      some (if fEmptyRun.kind = .sentinel then 0 else fEmptyRun.state.total.getD 0)⟩ ∧
    (mkDF [extractRecord e0]).columns = specOutputColumns :=
  ⟨claim_C7_empty_result.1 argsMax5 pagesEmpty fEmptyRun rfl rfl,
   claim_C7_empty_result.2 [extractRecord e0] (by decide)⟩

/-- Counterexample to C7 as stated: a run accumulating zero records whose
single page reported a total of 7 returns a dataframe with an empty column
list — not the fifteen documented columns — and `total_results = 7`, not
0. -/
theorem claim_C7_counterexample :
    okRowCount (fetch argsMax5 pagesTotalNoEntries) = some 0 ∧
    okColumns (fetch argsMax5 pagesTotalNoEntries) = some [] ∧
    ([] : List String) ≠ specOutputColumns ∧
    okTotal (fetch argsMax5 pagesTotalNoEntries) = some (some 7) :=
  ⟨rfl, rfl, by decide, rfl⟩

/-- Claim C8: in every successful fetch, each row's `url_doi` is the fixed
prefix `https://doi.org/` concatenated with the row's DOI when the DOI is
present, and null when it is null; in the concrete run, DOI
`10.1234/abcd` yields `https://doi.org/10.1234/abcd` and a missing DOI
yields null. -/
theorem claim_C8_url_doi :
    (∀ (a : FetchArgs) (pages : Nat → PageResponse) (r : FetchResult),
      fetch a pages = .ok r → ∀ row ∈ r.df.rows,
        row.url_doi = (match row.doi with
          | some d => some ("https://doi.org/" ++ d)
          | none => none)) ∧
    okUrlDois (fetch argsMax5 pagesDoi) = some [some "https://doi.org/10.1234/abcd", none] := by
  refine ⟨?_, rfl⟩
  intro a pages r h row hrow
  obtain ⟨f, hf, hr⟩ := fetch_ok_elim h
  subst hr
  by_cases hk : f.kind = .sentinel
  · rw [finishFetch_sentinel hk] at hrow
    simp [emptyDF] at hrow
  · rw [finishFetch_not_sentinel hk] at hrow
    simp only at hrow
    unfold mkDF at hrow
    split at hrow
    · simp [emptyDF] at hrow
    · simp only [List.mem_map] at hrow
      obtain ⟨rec, -, hrec⟩ := hrow
      subst hrec
      rfl

/-- Witness for C8: the derivation applied to the DOI-bearing row of the
concrete run. -/
theorem claim_C8_url_doi_witness :
    (assembleRow (extractRecord eDoi)).url_doi =
      (match (assembleRow (extractRecord eDoi)).doi with
        | some d => some ("https://doi.org/" ++ d)
        | none => none) :=
  claim_C8_url_doi.1 argsMax5 pagesDoi rDoi rfl (assembleRow (extractRecord eDoi)) (by decide)

/-- Claim C5: whenever the field selector is outside the allowed set, or
`max_records` or `step` is non-positive, or no usable search-term
parameter is present (year alone is insufficient), `fetch` fails with a
`ValueError` whose result does not depend on the service's responses — no
request is issued; in the no-search-term case the message is exactly the
one naming every acceptable parameter form; and whenever validation
passes, every page query contains at least one usable search-term key. -/
theorem claim_C5_validation :
    (∀ a : FetchArgs,
      (ALLOWED_FIELDS.contains a.field = false ∨ a.max_records ≤ 0 ∨ a.step ≤ 0 ∨
       SEARCH_PARAM_KEYS.any (fun k => containsKey (base_params a) k) = false) →
      ∃ msg, ∀ pages, fetch a pages = .error (.valueError msg)) ∧
    (∀ a : FetchArgs,
      ALLOWED_FIELDS.contains a.field = true → 0 < a.max_records → 0 < a.step →
      SEARCH_PARAM_KEYS.any (fun k => containsKey (base_params a) k) = false →
      ∀ pages, fetch a pages = .error (.valueError noSearchTermMsg)) ∧
    (∀ a : FetchArgs, validationError a = none →
      ∀ n : Nat, SEARCH_PARAM_KEYS.any (fun k => containsKey (pageParams a n) k) = true) := by
  refine ⟨?_, ?_, ?_⟩
  · intro a hdis
    cases hv : validationError a with
    | some msg => exact ⟨msg, fun pages => fetch_validation_error hv pages⟩
    | none =>
      obtain ⟨h1, h2, h3, h4⟩ := validation_none_facts hv
      rcases hdis with h | h | h | h
      · rw [h1] at h
        exact absurd h (by simp)
      · omega
      · omega
      · rw [h4] at h
        exact absurd h (by simp)
  · intro a h1 h2 h3 h4 pages
    have hv : validationError a = some noSearchTermMsg := by
      unfold validationError
      rw [if_neg (by rw [h1]; simp), if_neg (by omega), if_neg (by omega), if_pos h4]
    exact fetch_validation_error hv pages
  · intro a hv n
    obtain ⟨-, -, -, h4⟩ := validation_none_facts hv
    rw [List.any_eq_true] at h4 ⊢
    obtain ⟨k, hk, hck⟩ := h4
    refine ⟨k, hk, ?_⟩
    unfold containsKey at hck ⊢
    rw [List.any_eq_true] at hck ⊢
    obtain ⟨kv, hkv, hkvk⟩ := hck
    exact ⟨kv, by unfold pageParams; exact List.mem_append_left _ hkv, hkvk⟩

/-- Witness for C5: a call with only a year fails with the documented
message regardless of the service, and a validated call's page query
contains a usable search-term key. -/
theorem claim_C5_validation_witness :
    fetch { target_word := none } pagesEmpty = .error (.valueError noSearchTermMsg) ∧
    SEARCH_PARAM_KEYS.any (fun k => containsKey (pageParams argsMax5 1) k) = true :=
  ⟨claim_C5_validation.2.1 { target_word := none } rfl (by decide) (by decide) rfl pagesEmpty,
   claim_C5_validation.2.2 argsMax5 rfl 1⟩

/-- Claim C9: on a page that parses as XML, carries no sentinel status, and
whose `totalResults` text is present and non-empty but not a decimal
integer, `fetch` fails with the plain `ValueError` from `int(...)` — not
with the `JStageAPIError` wrapper used for request and parse failures. -/
theorem claim_C9_total_parse_valueerror :
    errOf (fetch argsMax5 pagesBadTotal) = some (.valueError (intValueErrorMsg "N/A")) ∧
    isJStageAPIError (errOf (fetch argsMax5 pagesBadTotal)) = some false :=
  ⟨rfl, rfl⟩

end JStaget
